import Mathlib

/-!
Shallow embedding of `packages/trigger-sdk/src/triggerClient.ts`
(the `TriggerClient` class and the free function `buildEndpointUrl`).

JavaScript objects holding JSON data are modelled by the inductive `Json`;
`Record<string, T>` registries are modelled by association lists with
JS-object assignment semantics (`setKey` replaces in place, appends at the
end when the key is absent, mirroring insertion order of JS objects);
`process.env` is modelled by an explicit `Env` structure; a thrown JS value
is modelled by `Except`; `async` is erased (every awaited call is either
pure in the source or an external collaborator).
-/

namespace Trigger

/-- JSON values (request/response bodies, payloads, params). -/
inductive Json where
  | null : Json
  | bool (b : Bool) : Json
  | num (n : Int) : Json
  | str (s : String) : Json
  | arr (xs : List Json) : Json
  | obj (fields : List (String × Json)) : Json

/-- A thrown JS value, observed through the two error-shape schemas:
only its optional `message` and `stack` string fields matter to
`#executeJob`'s catch clause. -/
structure JsObject where
  message : Option String
  stack : Option String
deriving DecidableEq, Repr

def Json.getField : Json → String → Option Json
  | .obj fields, k => fields.lookup k
  | _, _ => none

def Json.asString : Json → Option String
  | .str s => some s
  | _ => none

def Json.asArr : Json → Option (List Json)
  | .arr xs => some xs
  | _ => none

/-- Association-list lookup for `Record<string, α>` registries. -/
def lookupKey {α : Type} : List (String × α) → String → Option α
  | [], _ => none
  | (k', v) :: rest, k => if k' = k then some v else lookupKey rest k

/-- Source: `Record` assignment `r[k] = v`: replaces the existing entry in place
(JS objects keep the original insertion position), appends otherwise. -/
def setKey {α : Type} : List (String × α) → String → α → List (String × α)
  | [], k, v => [(k, v)]
  | (k', v') :: rest, k, v =>
    if k' = k then (k, v) :: rest else (k', v') :: setKey rest k v

/-- JS string truthiness for an optional header value:
`undefined` and `""` are falsy. -/
def strTruthy : Option String → Bool
  | none => false
  | some s => s ≠ ""

/-- JS truthiness filter on an optional environment value: `""` acts as
unset under an `if (x)` test (but not under `??`). -/
def envTruthy : Option String → Option String
  | none => none
  | some s => if s = "" then none else some s

/-- Headers of a `NormalizedRequest`, restricted to the header names the
dispatcher reads (lower-case names `x-trigger-api-key`, `x-trigger-action`,
`x-trigger-job-id`, and the `x-ts-*` webhook delivery headers). An absent
header is `none`. -/
structure RequestHeaders where
  xTriggerApiKey : Option String
  xTriggerAction : Option String
  xTriggerJobId : Option String
  xTsHttpUrl : Option String
  xTsHttpMethod : Option String
  xTsHttpHeaders : Option Json
  xTsKey : Option String
  xTsDynamicId : Option String
  xTsSecret : Option String
  xTsParams : Option Json
  xTsData : Option Json

/-- Source: `NormalizedRequest` from `@trigger.dev/internal`: method, headers and a
JSON body. -/
structure NormalizedRequest where
  method : String
  headers : RequestHeaders
  body : Json

/-- Source: `NormalizedResponse`: an HTTP status and a JSON body. -/
structure NormalizedResponse where
  status : Nat
  body : Json

/-- Source: `process.env` as read by `triggerClient.ts`. -/
structure Env where
  TRIGGER_API_KEY : Option String
  TRIGGER_ENDPOINT : Option String
  TRIGGER_HOST : Option String
  HOST : Option String
  HOSTNAME : Option String
  NOW_URL : Option String
  VERCEL_URL : Option String

/-- Source: `TriggerClientOptions` (`logLevel` is only forwarded to the logger and
is omitted). -/
structure TriggerClientOptions where
  apiKey : Option String
  apiUrl : Option String
  endpoint : Option String
  path : Option String

/-- The `event` record inside a `RunJobBody` / `PreprocessRunBody`. -/
structure EventRecord where
  id : String
  name : String
  context : Option Json
  timestamp : String
  payload : Option Json

/-- A `{id, version}` job reference. -/
structure JobRef where
  id : String
  version : String
deriving DecidableEq, Repr

/-- The `job` reference of an execution body. -/
structure JobBodyRef where
  id : String
  version : String

/-- The `run` record of an execution body (only `id` is read). -/
structure RunRecord where
  id : String

/-- Source: `RunJobBody` from `@trigger.dev/internal` (fields read by
`handleRequest`, `#executeJob` and `#createRunContext`). -/
structure RunJobBody where
  event : EventRecord
  organization : Json
  environment : Json
  job : JobBodyRef
  run : RunRecord
  account : Option Json
  connections : Option Json
  tasks : List Json

/-- Source: `PreprocessRunBody` (fields read by `#preprocessRun` and
`#createPreprocessRunContext`). -/
structure PreprocessRunBody where
  event : EventRecord
  organization : Json
  environment : Json
  job : JobBodyRef
  run : RunRecord
  account : Option Json

/-- Source: `InitializeTriggerBody` (`id` plus `params`). -/
structure InitializeTriggerBody where
  id : String
  params : Json

/-- The `event` projection placed in a run/preprocess context by
`#createRunContext` / `#createPreprocessRunContext`: id, name, context and
timestamp only — no payload field exists. -/
structure EventContext where
  id : String
  name : String
  context : Option Json
  timestamp : String

/-- Source: `TriggerContext` (also standing for `TriggerPreprocessContext`, which
projects the same fields). -/
structure TriggerContext where
  event : EventContext
  organization : Json
  environment : Json
  job : JobBodyRef
  run : RunRecord
  account : Option Json

/-- The slice of the `IO` object determined by this file: the run id and
the caller-supplied task cache (`new IO({id: body.run.id, cachedTasks:
body.tasks, ...})`); the api client, logger and integration decoration are
external collaborators. -/
structure IOCache where
  id : String
  cachedTasks : List Json

/-- Result of invoking a user `run` function: a normal return, a thrown
`ResumeWithTask` control signal carrying a task, or any other thrown
value. -/
inductive RunFnResult where
  | ok (output : Json) : RunFnResult
  | resumeWithTask (task : Json) : RunFnResult
  | thrown (e : JsObject) : RunFnResult

/-- Source: `EventSpecification`: name, payload decoder (which may throw), and the
optional `runElements` used by preprocessing. -/
structure EventSpecification where
  name : String
  parsePayload : Json → Except JsObject Json
  runElements : Option (Json → List Json)

/-- An attached `EventTrigger` (the only trigger shape `handleRequest`
reads through: `job.trigger.event`). -/
structure EventTrigger where
  event : EventSpecification
  filter : Json

structure QueueOptions where
  name : String
  maxConcurrent : Nat

/-- A registered `Job`: identity, version, enabled flag, trigger, optional
queue descriptor, the user run function, and its serialized descriptor
(`toJSON` lives in `job.ts`, outside this file; it is carried as data). -/
structure Job where
  id : String
  version : String
  enabled : Bool
  trigger : EventTrigger
  queue : Option QueueOptions
  run : Json → IOCache → TriggerContext → RunFnResult
  toJSON : Json

structure Integration where
  id : String
  usesLocalAuth : Bool

/-- The `source` descriptor handed to a registered HTTP source handler
(built in the `DELIVER_HTTP_SOURCE_REQUEST` branch). -/
structure HandleTriggerSource where
  key : String
  dynamicId : Option String
  secret : Option String
  params : Option Json
  data : Option Json

/-- The `sourceRequest` built from the `x-ts-http-*` headers plus the raw
body. -/
structure HttpSourceRequest where
  url : String
  method : String
  headers : Json
  rawBody : Json

/-- What a source `handle` call may produce: events plus an optional
response; `none` models a handler that returns `void`. -/
structure HandlerResults where
  events : List Json
  response : Option NormalizedResponse

/-- Source: `ExternalSource` capabilities used by `attachSource` and the HTTP
source router: channel, version, integration reference, `register` (an
external collaborator, carried as data) and `handle`. -/
structure ExternalSource where
  channel : String
  version : String
  integration : Integration
  register : Json → Json → Option Json
  handle : HandleTriggerSource → HttpSourceRequest → Option HandlerResults

/-- Source: `DynamicTrigger`: id, its source, and
`registeredTriggerForParams` materializing a registration descriptor. -/
structure DynamicTrigger where
  id : String
  source : ExternalSource
  registeredTriggerForParams : Json → Json

/-- Source: `SourceMetadata` registry entry. -/
structure SourceMetadata where
  channel : String
  key : String
  params : Json
  events : List String
  clientId : Option String

/-- The type of a registered HTTP source handler closure. -/
def HttpHandler : Type := HandleTriggerSource → HttpSourceRequest → Option HandlerResults

/-- The mutable state of a `TriggerClient` instance: its five registries
plus name, endpoint, options and the process environment it reads. -/
structure ClientState where
  name : String
  endpoint : String
  options : TriggerClientOptions
  env : Env
  registeredJobs : List (String × Job)
  registeredSources : List (String × SourceMetadata)
  registeredHttpSourceHandlers : List (String × HttpHandler)
  registeredDynamicTriggers : List (String × DynamicTrigger)
  jobMetadataByDynamicTriggers : List (String × List JobRef)
  registeredSchedules : List (String × List JobRef)

/-- Modelled from the spec: `RunJobBodySchema.safeParse` — the zod schema
lives in `@trigger.dev/internal`, which is not under `src/`. Per the spec,
a `RunExecutionRequest` carries `event` (id, name, context, timestamp,
payload), `organization`, `environment`, `job` (id/version), `run` (id),
`account`, `connections`, and `tasks`; a body not of this shape fails
validation (`none`). -/
def decodeEventRecord (j : Json) : Option EventRecord := do
  let id ← (← j.getField "id").asString
  let name ← (← j.getField "name").asString
  let timestamp ← (← j.getField "timestamp").asString
  some { id := id, name := name, context := j.getField "context",
         timestamp := timestamp, payload := j.getField "payload" }

def decodeJobBodyRef (j : Json) : Option JobBodyRef := do
  let id ← (← j.getField "id").asString
  let version ← (← j.getField "version").asString
  some { id := id, version := version }

def decodeRunRecord (j : Json) : Option RunRecord := do
  let id ← (← j.getField "id").asString
  some { id := id }

def decodeTasks (j : Json) : Option (List Json) :=
  match j.getField "tasks" with
  | none => some []
  | some t => t.asArr

def runJobBodySafeParse (j : Json) : Option RunJobBody := do
  let event ← decodeEventRecord (← j.getField "event")
  let organization ← j.getField "organization"
  let environment ← j.getField "environment"
  let jobRef ← decodeJobBodyRef (← j.getField "job")
  let runRecord ← decodeRunRecord (← j.getField "run")
  let tasks ← decodeTasks j
  some { event := event, organization := organization,
         environment := environment, job := jobRef, run := runRecord,
         account := j.getField "account",
         connections := j.getField "connections", tasks := tasks }

/-- Modelled from the spec: `PreprocessRunBodySchema.safeParse` (schema in
`@trigger.dev/internal`, not under `src/`): the fields the preprocess
handler destructures. -/
def preprocessRunBodySafeParse (j : Json) : Option PreprocessRunBody := do
  let event ← decodeEventRecord (← j.getField "event")
  let organization ← j.getField "organization"
  let environment ← j.getField "environment"
  let jobRef ← decodeJobBodyRef (← j.getField "job")
  let runRecord ← decodeRunRecord (← j.getField "run")
  some { event := event, organization := organization,
         environment := environment, job := jobRef, run := runRecord,
         account := j.getField "account" }

/-- Modelled from the spec: `InitializeTriggerBodySchema.safeParse`
(schema in `@trigger.dev/internal`, not under `src/`): a trigger `id` plus
`params`. -/
def initializeTriggerBodySafeParse (j : Json) : Option InitializeTriggerBody := do
  let id ← (← j.getField "id").asString
  some { id := id, params := (j.getField "params").getD Json.null }

/-- The parsed `x-ts-*` webhook delivery headers. -/
structure HttpSourceRequestHeaders where
  url : String
  method : String
  headers : Json
  key : String
  dynamicId : Option String
  secret : Option String
  params : Option Json
  data : Option Json

/-- Modelled from the spec: `HttpSourceRequestHeadersSchema.safeParse`
(schema in `@trigger.dev/internal`, not under `src/`): requires the
`x-ts-http-url`, `x-ts-http-method`, `x-ts-http-headers` and `x-ts-key`
delivery headers; `x-ts-dynamic-id`, `x-ts-secret`, `x-ts-params` and
`x-ts-data` are optional. -/
def httpSourceRequestHeadersSafeParse (h : RequestHeaders) :
    Option HttpSourceRequestHeaders := do
  let url ← h.xTsHttpUrl
  let method ← h.xTsHttpMethod
  let headers ← h.xTsHttpHeaders
  let key ← h.xTsKey
  some { url := url, method := method, headers := headers, key := key,
         dynamicId := h.xTsDynamicId, secret := h.xTsSecret,
         params := h.xTsParams, data := h.xTsData }

/-- Source: `this.#options.apiKey ?? process.env.TRIGGER_API_KEY` (nullish
coalescing: an explicit empty string is not replaced by the fallback). -/
def configuredApiKey (st : ClientState) : Option String :=
  st.options.apiKey <|> st.env.TRIGGER_API_KEY

/-- Source: `authorized(apiKey)`: false when no key is configured (or the
configured key is the falsy `""`), else strict equality with the supplied
header value (an absent header never equals a configured string). -/
def authorized (st : ClientState) (apiKey : Option String) : Bool :=
  match configuredApiKey st with
  | none => false
  | some localApiKey =>
    if localApiKey = "" then false else apiKey = some localApiKey

/-- The message of the fatal configuration error thrown by
`buildEndpointUrl`. -/
def endpointErrorMessage : String :=
  "Could not determine the endpoint for the trigger client. Please set the TRIGGER_ENDPOINT environment variable."

/-- Source: `buildEndpointUrl(path)`: `TRIGGER_ENDPOINT` (truthy) wins; else the
first present host variable in the fixed fallback chain (nullish
coalescing), which must then be truthy; else the fatal configuration
error is thrown. -/
def buildEndpointUrl (env : Env) (path : Option String) : Except String String :=
  match envTruthy env.TRIGGER_ENDPOINT with
  | some endpoint => .ok (endpoint ++ path.getD "")
  | none =>
    match env.TRIGGER_HOST <|> env.HOST <|> env.HOSTNAME <|> env.NOW_URL <|> env.VERCEL_URL with
    | some host =>
      if host = "" then .error endpointErrorMessage
      else .ok ("https://" ++ host ++ path.getD "")
    | none => .error endpointErrorMessage

/-- The `TriggerClient` constructor: resolves `options.endpoint ??
buildEndpointUrl(options.path)` immediately (so an undeterminable endpoint
throws here), and starts with all five registries empty. -/
def TriggerClient.construct (name : String) (options : TriggerClientOptions)
    (env : Env) : Except String ClientState :=
  match options.endpoint with
  | some e =>
    .ok { name := name, endpoint := e, options := options, env := env,
          registeredJobs := [], registeredSources := [],
          registeredHttpSourceHandlers := [], registeredDynamicTriggers := [],
          jobMetadataByDynamicTriggers := [], registeredSchedules := [] }
  | none =>
    match buildEndpointUrl env options.path with
    | .error msg => .error msg
    | .ok e =>
      .ok { name := name, endpoint := e, options := options, env := env,
            registeredJobs := [], registeredSources := [],
            registeredHttpSourceHandlers := [], registeredDynamicTriggers := [],
            jobMetadataByDynamicTriggers := [], registeredSchedules := [] }

/-- The payload `listen()` hands to the external backend client
(`registerEndpoint({url, name})`); `listen` itself performs no endpoint
resolution and raises no configuration error. -/
structure RegisterEndpointCall where
  url : String
  name : String

def listen (st : ClientState) : RegisterEndpointCall :=
  { url := st.endpoint, name := st.name }

/-- Source: `#createRunContext(execution)`: projects event id/name/context/
timestamp plus organization, environment, job, run, account. -/
def createRunContext (execution : RunJobBody) : TriggerContext :=
  { event := { id := execution.event.id, name := execution.event.name,
               context := execution.event.context,
               timestamp := execution.event.timestamp },
    organization := execution.organization,
    environment := execution.environment,
    job := execution.job, run := execution.run,
    account := execution.account }

/-- Source: `#createPreprocessRunContext(body)`: the same projection from a
preprocess body. -/
def createPreprocessRunContext (body : PreprocessRunBody) : TriggerContext :=
  { event := { id := body.event.id, name := body.event.name,
               context := body.event.context,
               timestamp := body.event.timestamp },
    organization := body.organization,
    environment := body.environment,
    job := body.job, run := body.run,
    account := body.account }

/-- The structured error the catch clause produces. `stack` is present
exactly when the thrown value matched the error-with-stack shape. -/
structure ErrorShape where
  message : String
  stack : Option String
deriving DecidableEq, Repr

/-- Modelled from the spec: `ErrorWithStackSchema.safeParse` (schema in
`@trigger.dev/internal`, not under `src/`): matches a thrown value
carrying both a string `message` and a string `stack`. -/
def errorWithStackSafeParse (e : JsObject) : Option ErrorShape :=
  match e.message, e.stack with
  | some m, some s => some { message := m, stack := some s }
  | _, _ => none

/-- Modelled from the spec: `ErrorWithMessage.safeParse` (schema in
`@trigger.dev/internal`, not under `src/`): matches a thrown value
carrying a string `message`; the result keeps the message only. -/
def errorWithMessageSafeParse (e : JsObject) : Option ErrorShape :=
  match e.message with
  | some m => some { message := m, stack := none }
  | none => none

/-- The catch clause of `#executeJob` applied to a thrown non-resume
value: error-with-stack first, then error-with-message, then the constant
unknown error. -/
def classifyThrown (e : JsObject) : ErrorShape :=
  match errorWithStackSafeParse e with
  | some err => err
  | none =>
    match errorWithMessageSafeParse e with
    | some err => err
    | none => { message := "Unknown error", stack := none }

/-- The result record `#executeJob` returns (absent fields are `none`,
mirroring `undefined`). -/
structure JobResults where
  completed : Bool
  output : Option Json
  task : Option Json
  error : Option ErrorShape

/-- Source: `#executeJob(body, job)`: parse the payload and invoke the run
function inside one try/catch; a thrown `ResumeWithTask` becomes
`{completed: false, task}`, any other throw (including one from
`parsePayload`) is classified by the error schemas. -/
def executeJob (body : RunJobBody) (job : Job) : JobResults :=
  let context := createRunContext body
  let ioCache : IOCache := { id := body.run.id, cachedTasks := body.tasks }
  match job.trigger.event.parsePayload (body.event.payload.getD (Json.obj [])) with
  | .error e =>
    { completed := true, output := none, task := none,
      error := some (classifyThrown e) }
  | .ok payload =>
    match job.run payload ioCache context with
    | .ok output =>
      { completed := true, output := some output, task := none, error := none }
    | .resumeWithTask task =>
      { completed := false, output := none, task := some task, error := none }
    | .thrown e =>
      { completed := true, output := none, task := none,
        error := some (classifyThrown e) }

structure PreprocessResults where
  abort : Bool
  elements : List Json

/-- Source: `#preprocessRun(body, job)`: parses the payload through the job's
event specification with NO surrounding try/catch — a parse throw
propagates to the caller — then computes `runElements ?? []`. -/
def preprocessRun (body : PreprocessRunBody) (job : Job) :
    Except JsObject PreprocessResults :=
  let _context := createPreprocessRunContext body
  match job.trigger.event.parsePayload (body.event.payload.getD (Json.obj [])) with
  | .error e => .error e
  | .ok parsedPayload =>
    .ok { abort := false,
          elements := (job.trigger.event.runElements.map (fun f => f parsedPayload)).getD [] }

/-- Insertion-ordered deduplication, keeping first occurrences:
`Array.from(new Set(l))`. -/
def dedupFirstAux (seen : List String) : List String → List String
  | [] => []
  | x :: xs =>
    if x ∈ seen then dedupFirstAux seen xs
    else x :: dedupFirstAux (x :: seen) xs

def dedupFirst (l : List String) : List String := dedupFirstAux [] l

/-- Source: `attachJob` (`attach(job)` in the source): no-op when disabled, else
store under the job id. (`job.trigger.attachToJob` is trigger-specific;
for a plain `EventTrigger` it adds nothing to the client registries.) -/
def attachJob (st : ClientState) (job : Job) : ClientState :=
  if job.enabled then
    { st with registeredJobs := setKey st.registeredJobs job.id job }
  else st

/-- Source: `attachJobToDynamicTrigger(job, trigger)`: appends `{id, version}` to
that trigger's job-reference list (`?? []` when absent). -/
def attachJobToDynamicTrigger (st : ClientState) (job : Job)
    (trigger : DynamicTrigger) : ClientState :=
  let jobs := (lookupKey st.jobMetadataByDynamicTriggers trigger.id).getD []
  let jobs := jobs ++ [{ id := job.id, version := job.version }]
  { st with jobMetadataByDynamicTriggers :=
      setKey st.jobMetadataByDynamicTriggers trigger.id jobs }

/-- Source: `attachDynamicSchedule(key, job)`: appends `{id, version}` to the
schedule registry's list for `key`. -/
def attachDynamicSchedule (st : ClientState) (key : String) (job : Job) :
    ClientState :=
  let jobs := (lookupKey st.registeredSchedules key).getD []
  let jobs := jobs ++ [{ id := job.id, version := job.version }]
  { st with registeredSchedules := setKey st.registeredSchedules key jobs }

/-- Options record of `attachSource`. -/
structure AttachSourceOptions where
  key : String
  source : ExternalSource
  event : EventSpecification
  params : Json

/-- Modelled from the spec: the internal register-source event name
(`REGISTER_SOURCE_EVENT` constant from `@trigger.dev/internal`). -/
def REGISTER_SOURCE_EVENT : String := "trigger.internal.register_source"

/-- Modelled from the spec: the `registerSourceEvent` specification; its
`parsePayload` (`RegisterSourceEventSchema.parse`) is outside `src/` and
is modelled as accepting. -/
def registerSourceEvent : EventSpecification :=
  { name := REGISTER_SOURCE_EVENT, parsePayload := fun j => .ok j,
    runElements := none }

/-- Modelled from the spec: the hidden job `attachSource` synthesizes via
`new Job(this, {...})` (the `Job` constructor, in `job.ts` outside
`src/`, self-attaches to the client): keyed by `options.key`, triggered by
the internal register-source event filtered to that key, with
`queue.maxConcurrent = 1`; its run body calls `source.register` and
forwards any update instructions through the external `io.updateSource`
collaborator. -/
def sourceRegistrationJob (o : AttachSourceOptions) : Job :=
  { id := o.key, version := o.source.version, enabled := true,
    trigger := { event := registerSourceEvent,
                 filter := Json.obj [("source",
                   Json.obj [("key", Json.arr [Json.str o.key])])] },
    queue := some { name := o.key, maxConcurrent := 1 },
    run := fun event _ _ =>
      match o.source.register o.params event with
      | none => .ok Json.null
      | some updates => .ok updates,
    toJSON := Json.obj [("id", Json.str o.key)] }

/-- Source: `attachSource(options)`: always overwrite the HTTP handler closure for
the key; reuse the existing `SourceMetadata` (or create a fresh one with
channel/params/clientId from the options); merge the event name into the
entry's event list with JS-`Set` semantics; store; then synthesize the
hidden registration job. -/
def attachSource (st : ClientState) (o : AttachSourceOptions) : ClientState :=
  let handlers := setKey st.registeredHttpSourceHandlers o.key
      (fun s r => o.source.handle s r)
  let registeredSource :=
    match lookupKey st.registeredSources o.key with
    | some m => m
    | none =>
      { channel := o.source.channel, key := o.key, params := o.params,
        events := [],
        clientId := if o.source.integration.usesLocalAuth then none
                    else some o.source.integration.id }
  let registeredSource :=
    { registeredSource with
        events := dedupFirst (registeredSource.events ++ [o.event.name]) }
  let st := { st with
      registeredHttpSourceHandlers := handlers,
      registeredSources := setKey st.registeredSources o.key registeredSource }
  attachJob st (sourceRegistrationJob o)

/-- Modelled from the spec: the hidden job `attachDynamicTrigger`
synthesizes (`register-dynamic-trigger-` prefix, filtered to the dynamic
trigger's id; run body via `source.register` as for `attachSource`). -/
def dynamicTriggerRegistrationJob (trigger : DynamicTrigger) : Job :=
  { id := "register-dynamic-trigger-" ++ trigger.id,
    version := trigger.source.version, enabled := true,
    trigger := { event := registerSourceEvent,
                 filter := Json.obj [("dynamicTriggerId",
                   Json.arr [Json.str trigger.id])] },
    queue := none,
    run := fun event _ _ =>
      match trigger.source.register Json.null event with
      | none => .ok Json.null
      | some updates => .ok updates,
    toJSON := Json.obj [("id", Json.str ("register-dynamic-trigger-" ++ trigger.id))] }

/-- Source: `attachDynamicTrigger(trigger)`: store under the trigger id and
self-attach the hidden registration job. -/
def attachDynamicTrigger (st : ClientState) (trigger : DynamicTrigger) :
    ClientState :=
  let dynamicTriggers := setKey st.registeredDynamicTriggers trigger.id trigger
  let st := { st with registeredDynamicTriggers := dynamicTriggers }
  attachJob st (dynamicTriggerRegistrationJob trigger)

/-- The default `{status: 200, body: {ok: true}}` acknowledgement. -/
def okResponse : NormalizedResponse :=
  { status := 200, body := Json.obj [("ok", Json.bool true)] }

/-- Final result of the HTTP source router (response always present). -/
structure RouteResults where
  events : List Json
  response : NormalizedResponse

/-- Shared tail of both router branches: a `void` result or an absent
response falls back to the default acknowledgement. -/
def routeHandlerResults : Option HandlerResults → RouteResults
  | none => { events := [], response := okResponse }
  | some results =>
    { events := results.events,
      response := results.response.getD okResponse }

/-- Source: `#handleHttpSourceRequest(source, sourceRequest)`: dynamic branch when
`source.dynamicId` is truthy (unknown dynamic triggers are silently
acknowledged), else the static handler registered for `source.key`
(unknown keys likewise acknowledged). -/
def handleHttpSourceRequest (st : ClientState) (source : HandleTriggerSource)
    (sourceRequest : HttpSourceRequest) : RouteResults :=
  if strTruthy source.dynamicId then
    match lookupKey st.registeredDynamicTriggers (source.dynamicId.getD "") with
    | none => { events := [], response := okResponse }
    | some dynamicTrigger =>
      routeHandlerResults (dynamicTrigger.source.handle source sourceRequest)
  else
    match lookupKey st.registeredHttpSourceHandlers source.key with
    | none => { events := [], response := okResponse }
    | some handler => routeHandlerResults (handler source sourceRequest)

/-- A JSON object field that is dropped when the value is `undefined`
(mirroring JSON serialization of the response body). -/
def optField (k : String) : Option Json → List (String × Json)
  | none => []
  | some v => [(k, v)]

def jobRefToJson (r : JobRef) : Json :=
  Json.obj [("id", Json.str r.id), ("version", Json.str r.version)]

def sourceMetadataToJson (m : SourceMetadata) : Json :=
  Json.obj ([("channel", Json.str m.channel), ("key", Json.str m.key),
    ("params", m.params),
    ("events", Json.arr (m.events.map Json.str))]
    ++ optField "clientId" (m.clientId.map Json.str))

def normalizedResponseToJson (r : NormalizedResponse) : Json :=
  Json.obj [("status", Json.num (Int.ofNat r.status)), ("body", r.body)]

def errorShapeToJson (e : ErrorShape) : Json :=
  Json.obj ([("message", Json.str e.message)]
    ++ optField "stack" (e.stack.map Json.str))

/-- The `GetEndpointDataResponse` body of the full GET snapshot. -/
def endpointDataBody (st : ClientState) : Json :=
  Json.obj [
    ("jobs", Json.arr (st.registeredJobs.map (fun p => p.2.toJSON))),
    ("sources", Json.arr (st.registeredSources.map (fun p => sourceMetadataToJson p.2))),
    ("dynamicTriggers", Json.arr (st.registeredDynamicTriggers.map (fun p =>
      Json.obj [("id", Json.str p.2.id),
        ("jobs", Json.arr (((lookupKey st.jobMetadataByDynamicTriggers p.2.id).getD []).map jobRefToJson))]))),
    ("dynamicSchedules", Json.arr (st.registeredSchedules.map (fun p =>
      Json.obj [("id", Json.str p.1),
        ("jobs", Json.arr (p.2.map jobRefToJson))])))]

def messageBody (msg : String) : Json :=
  Json.obj [("message", Json.str msg)]

/-- The GET branch of `handleRequest` (always pure): `PING`, the job-id
filter (JS truthiness on the header), or the full snapshot. -/
def handleGet (st : ClientState) (request : NormalizedRequest) :
    NormalizedResponse :=
  if request.headers.xTriggerAction = some "PING" then
    { status := 200, body := messageBody "PONG" }
  else if strTruthy request.headers.xTriggerJobId then
    match lookupKey st.registeredJobs (request.headers.xTriggerJobId.getD "") with
    | none => { status := 404, body := messageBody "Job not found" }
    | some job => { status := 200, body := job.toJSON }
  else
    { status := 200, body := endpointDataBody st }

/-- The `{completed, output, executionId, task}` body of a successful
`EXECUTE_JOB` response (absent optional fields are dropped). -/
def runJobResponseBody (results : JobResults) (executionId : String) : Json :=
  Json.obj ([("completed", Json.bool results.completed)]
    ++ optField "output" results.output
    ++ [("executionId", Json.str executionId)]
    ++ optField "task" results.task)

/-- The `INITIALIZE_TRIGGER` branch. -/
def initializeTriggerResponse (st : ClientState) (request : NormalizedRequest) :
    NormalizedResponse :=
  match initializeTriggerBodySafeParse request.body with
  | none => { status := 400, body := messageBody "Invalid trigger body" }
  | some body =>
    match lookupKey st.registeredDynamicTriggers body.id with
    | none => { status := 404, body := messageBody "Dynamic trigger not found" }
    | some dynamicTrigger =>
      { status := 200, body := dynamicTrigger.registeredTriggerForParams body.params }

/-- The `EXECUTE_JOB` branch: validate, look up the job, execute, then
500 on a truthy `results.error` and 200 otherwise. -/
def executeJobResponse (st : ClientState) (request : NormalizedRequest) :
    NormalizedResponse :=
  match runJobBodySafeParse request.body with
  | none => { status := 400, body := messageBody "Invalid execution" }
  | some execution =>
    match lookupKey st.registeredJobs execution.job.id with
    | none => { status := 404, body := messageBody "Job not found" }
    | some job =>
      let results := executeJob execution job
      match results.error with
      | some err => { status := 500, body := errorShapeToJson err }
      | none => { status := 200, body := runJobResponseBody results execution.run.id }

/-- The `PREPROCESS_RUN` branch: the only branch that can let a thrown
value escape (via `#preprocessRun`'s uncaught `parsePayload`). -/
def preprocessRunResponse (st : ClientState) (request : NormalizedRequest) :
    Except JsObject NormalizedResponse :=
  match preprocessRunBodySafeParse request.body with
  | none => .ok { status := 400, body := messageBody "Invalid body" }
  | some body =>
    match lookupKey st.registeredJobs body.job.id with
    | none => .ok { status := 404, body := messageBody "Job not found" }
    | some job =>
      match preprocessRun body job with
      | .error e => .error e
      | .ok results =>
        .ok { status := 200,
              body := Json.obj [("abort", Json.bool results.abort),
                ("elements", Json.arr results.elements)] }

/-- The `DELIVER_HTTP_SOURCE_REQUEST` branch: parse the `x-ts-*` headers,
assemble `sourceRequest` and `source`, route. -/
def deliverHttpSourceResponse (st : ClientState) (request : NormalizedRequest) :
    NormalizedResponse :=
  match httpSourceRequestHeadersSafeParse request.headers with
  | none => { status := 400, body := messageBody "Invalid headers" }
  | some hd =>
    let sourceRequest : HttpSourceRequest :=
      { url := hd.url, method := hd.method, headers := hd.headers,
        rawBody := request.body }
    let source : HandleTriggerSource :=
      { key := hd.key, dynamicId := hd.dynamicId, secret := hd.secret,
        params := hd.params, data := hd.data }
    let results := handleHttpSourceRequest st source sourceRequest
    { status := 200,
      body := Json.obj [("events", Json.arr results.events),
        ("response", normalizedResponseToJson results.response)] }

/-- The POST switch on `x-trigger-action`; an unrecognized action falls
through to the final 405. -/
def handlePost (st : ClientState) (request : NormalizedRequest) :
    Except JsObject NormalizedResponse :=
  let action := request.headers.xTriggerAction
  if action = some "INITIALIZE" then
    let _registration := listen st
    .ok { status := 200, body := messageBody "Initialized" }
  else if action = some "INITIALIZE_TRIGGER" then
    .ok (initializeTriggerResponse st request)
  else if action = some "EXECUTE_JOB" then
    .ok (executeJobResponse st request)
  else if action = some "PREPROCESS_RUN" then
    preprocessRunResponse st request
  else if action = some "DELIVER_HTTP_SOURCE_REQUEST" then
    .ok (deliverHttpSourceResponse st request)
  else
    .ok { status := 405, body := messageBody "Method not allowed" }

/-- Source: `handleRequest(request)`: the authorization gate, then the
method/action dispatch; every non-2xx path and every branch result is a
normal response, except a thrown value escaping `PREPROCESS_RUN`. -/
def handleRequest (st : ClientState) (request : NormalizedRequest) :
    Except JsObject NormalizedResponse :=
  if authorized st request.headers.xTriggerApiKey then
    if request.method = "GET" then .ok (handleGet st request)
    else if request.method = "POST" then handlePost st request
    else .ok { status := 405, body := messageBody "Method not allowed" }
  else
    .ok { status := 401, body := messageBody "Unauthorized" }

/-! Concrete sample values used by the witness theorems. -/

def emptyHeaders : RequestHeaders :=
  { xTriggerApiKey := none, xTriggerAction := none, xTriggerJobId := none,
    xTsHttpUrl := none, xTsHttpMethod := none, xTsHttpHeaders := none,
    xTsKey := none, xTsDynamicId := none, xTsSecret := none,
    xTsParams := none, xTsData := none }

def emptyEnv : Env :=
  { TRIGGER_API_KEY := none, TRIGGER_ENDPOINT := none, TRIGGER_HOST := none,
    HOST := none, HOSTNAME := none, NOW_URL := none, VERCEL_URL := none }

def sampleOptions : TriggerClientOptions :=
  { apiKey := some "secret-key", apiUrl := none,
    endpoint := some "http://localhost:3000/api/trigger", path := none }

/-- A client state with a configured api key and empty registries. -/
def sampleState : ClientState :=
  { name := "sample", endpoint := "http://localhost:3000/api/trigger",
    options := sampleOptions, env := emptyEnv,
    registeredJobs := [], registeredSources := [],
    registeredHttpSourceHandlers := [], registeredDynamicTriggers := [],
    jobMetadataByDynamicTriggers := [], registeredSchedules := [] }

/-- An event specification accepting every payload unchanged. -/
def idEventSpecification : EventSpecification :=
  { name := "sample.event", parsePayload := fun j => .ok j,
    runElements := none }

/-- A job whose run function raises the suspension signal with a fixed
task. -/
def suspendingJob : Job :=
  { id := "suspending-job", version := "1.0.0", enabled := true,
    trigger := { event := idEventSpecification, filter := Json.obj [] },
    queue := none,
    run := fun _ _ _ => .resumeWithTask (Json.obj [("id", Json.str "task-1")]),
    toJSON := Json.obj [("id", Json.str "suspending-job")] }

/-- An event specification whose `parsePayload` throws on every input. -/
def failingEventSpecification : EventSpecification :=
  { name := "sample.event",
    parsePayload := fun _ => .error { message := some "bad payload", stack := none },
    runElements := none }

/-- A job whose event specification's `parsePayload` throws. -/
def parseFailingJob : Job :=
  { id := "parse-failing-job", version := "1.0.0", enabled := true,
    trigger := { event := failingEventSpecification, filter := Json.obj [] },
    queue := none,
    run := fun _ _ _ => .ok Json.null,
    toJSON := Json.obj [("id", Json.str "parse-failing-job")] }

/-- A valid execution body (decodes under `runJobBodySafeParse` and
`preprocessRunBodySafeParse`) referencing a job id. -/
def sampleBodyJson (jobId : String) : Json :=
  Json.obj [
    ("event", Json.obj [("id", Json.str "evt-1"), ("name", Json.str "sample.event"),
      ("timestamp", Json.str "2023-06-01T00:00:00Z"),
      ("payload", Json.obj [("n", Json.num 7)])]),
    ("organization", Json.obj [("id", Json.str "org-1")]),
    ("environment", Json.obj [("id", Json.str "env-1")]),
    ("job", Json.obj [("id", Json.str jobId), ("version", Json.str "1.0.0")]),
    ("run", Json.obj [("id", Json.str "run-1")]),
    ("tasks", Json.arr [])]

/-- Headers carrying the sample api key and the given action. -/
def actionHeaders (action : String) : RequestHeaders :=
  { emptyHeaders with
      xTriggerApiKey := some "secret-key"
      xTriggerAction := some action }

def sampleExecuteRequest (jobId : String) : NormalizedRequest :=
  { method := "POST", headers := actionHeaders "EXECUTE_JOB",
    body := sampleBodyJson jobId }

def samplePreprocessRequest (jobId : String) : NormalizedRequest :=
  { method := "POST", headers := actionHeaders "PREPROCESS_RUN",
    body := sampleBodyJson jobId }

/-- Source: `sampleState` with the suspending job registered. -/
def stSuspend : ClientState :=
  { sampleState with registeredJobs := [("suspending-job", suspendingJob)] }

/-- Source: `sampleState` with the parse-failing job registered. -/
def stParseFail : ClientState :=
  { sampleState with registeredJobs := [("parse-failing-job", parseFailingJob)] }

/-- A concrete execution body record. -/
def sampleRunBody : RunJobBody :=
  { event := { id := "evt-1", name := "sample.event", context := none,
               timestamp := "2023-06-01T00:00:00Z",
               payload := some (Json.obj [("n", Json.num 7)]) },
    organization := Json.obj [("id", Json.str "org-1")],
    environment := Json.obj [("id", Json.str "env-1")],
    job := { id := "throwing-job", version := "1.0.0" },
    run := { id := "run-1" }, account := none, connections := none,
    tasks := [] }

/-- A job whose run function throws a value carrying both a message and a
stack. -/
def throwBothJob : Job :=
  { id := "throwing-job", version := "1.0.0", enabled := true,
    trigger := { event := idEventSpecification, filter := Json.obj [] },
    queue := none,
    run := fun _ _ _ => .thrown { message := some "boom", stack := some "trace" },
    toJSON := Json.obj [("id", Json.str "throwing-job")] }

/-- A concrete external source whose handler yields nothing. -/
def sampleExternalSource : ExternalSource :=
  { channel := "HTTP", version := "0.1.0",
    integration := { id := "github", usesLocalAuth := false },
    register := fun _ _ => none, handle := fun _ _ => none }

def eventSpecNamed (n : String) : EventSpecification :=
  { name := n, parsePayload := fun j => .ok j, runElements := none }

/-- Two attach calls for the same key with different event names. -/
def attachCallA : AttachSourceOptions :=
  { key := "src-key", source := sampleExternalSource,
    event := eventSpecNamed "issues.opened", params := Json.null }

def attachCallB : AttachSourceOptions :=
  { key := "src-key", source := sampleExternalSource,
    event := eventSpecNamed "issues.closed", params := Json.null }

/-- A source registry entry as the first `attachSource` call for
`"src-key"` creates it. -/
def firstRegistrationMeta : SourceMetadata :=
  { channel := "HTTP", key := "src-key", params := Json.null,
    events := ["issues.opened"], clientId := some "github" }

/-- Source: `sampleState` with `"src-key"` already registered. -/
def stWithSource : ClientState :=
  { sampleState with registeredSources := [("src-key", firstRegistrationMeta)] }

/-- A concrete dynamic trigger. -/
def sampleDynamicTrigger : DynamicTrigger :=
  { id := "dynamic-1", source := sampleExternalSource,
    registeredTriggerForParams := fun p => p }

/-- The events of the source registry entry for `k` (`[]` when no entry
exists). -/
def sourceEvents (st : ClientState) (k : String) : List String :=
  ((lookupKey st.registeredSources k).map SourceMetadata.events).getD []

/-- Whether `handleRequest` produced a response (rather than letting a
thrown value propagate). -/
def isHandled : Except JsObject NormalizedResponse → Bool
  | .ok _ => true
  | .error _ => false

/-! Helper lemmas about the registry operations. -/

theorem lookupKey_setKey_self {α : Type} (l : List (String × α)) (key : String)
    (v : α) : lookupKey (setKey l key v) key = some v := by
  induction l with
  | nil => simp [setKey, lookupKey]
  | cons hd tl ih =>
    obtain ⟨k', v'⟩ := hd
    by_cases h : k' = key
    · simp [setKey, h, lookupKey]
    · simp [setKey, h, lookupKey, ih]

theorem mem_dedupFirstAux (n : String) (seen l : List String) :
    n ∈ dedupFirstAux seen l ↔ n ∈ l ∧ n ∉ seen := by
  induction l generalizing seen with
  | nil => simp [dedupFirstAux]
  | cons x xs ih =>
    by_cases hx : x ∈ seen
    · rw [show dedupFirstAux seen (x :: xs) = dedupFirstAux seen xs by
        simp [dedupFirstAux, hx]]
      rw [ih]
      constructor
      · rintro ⟨h1, h2⟩
        exact ⟨List.mem_cons_of_mem x h1, h2⟩
      · rintro ⟨h1, h2⟩
        rcases List.mem_cons.mp h1 with h1 | h1
        · exact absurd (h1 ▸ hx) h2
        · exact ⟨h1, h2⟩
    · rw [show dedupFirstAux seen (x :: xs) = x :: dedupFirstAux (x :: seen) xs by
        simp [dedupFirstAux, hx]]
      rw [List.mem_cons, ih]
      constructor
      · rintro (h1 | ⟨h1, h2⟩)
        · exact ⟨List.mem_cons.mpr (Or.inl h1), h1 ▸ hx⟩
        · exact ⟨List.mem_cons_of_mem x h1, fun hs => h2 (List.mem_cons_of_mem x hs)⟩
      · rintro ⟨h1, h2⟩
        by_cases hnx : n = x
        · exact Or.inl hnx
        · rcases List.mem_cons.mp h1 with h1 | h1
          · exact absurd h1 hnx
          · refine Or.inr ⟨h1, fun hs => ?_⟩
            rcases List.mem_cons.mp hs with hs | hs
            · exact hnx hs
            · exact h2 hs

theorem nodup_dedupFirstAux (seen l : List String) :
    (dedupFirstAux seen l).Nodup := by
  induction l generalizing seen with
  | nil => simp [dedupFirstAux]
  | cons x xs ih =>
    by_cases hx : x ∈ seen
    · simpa [dedupFirstAux, hx] using ih seen
    · rw [show dedupFirstAux seen (x :: xs) = x :: dedupFirstAux (x :: seen) xs by
        simp [dedupFirstAux, hx]]
      rw [List.nodup_cons]
      refine ⟨fun hmem => ?_, ih (x :: seen)⟩
      rw [mem_dedupFirstAux] at hmem
      exact hmem.2 (List.mem_cons_self x seen)

theorem dedupFirstAux_append_single (n : String) (seen es : List String)
    (hnodup : es.Nodup) (hdisj : ∀ x ∈ es, x ∉ seen) :
    dedupFirstAux seen (es ++ [n])
      = if n ∈ seen ∨ n ∈ es then es else es ++ [n] := by
  induction es generalizing seen with
  | nil =>
    by_cases hn : n ∈ seen
    · simp [dedupFirstAux, hn]
    · simp [dedupFirstAux, hn]
  | cons x xs ih =>
    have hx : x ∉ seen := hdisj x (List.mem_cons_self x xs)
    rw [List.nodup_cons] at hnodup
    have hdisj' : ∀ y ∈ xs, y ∉ x :: seen := by
      intro y hy
      rw [List.mem_cons]
      rintro (h | h)
      · exact hnodup.1 (h ▸ hy)
      · exact hdisj y (List.mem_cons_of_mem x hy) h
    rw [show (x :: xs) ++ [n] = x :: (xs ++ [n]) by rfl]
    rw [show dedupFirstAux seen (x :: (xs ++ [n]))
          = x :: dedupFirstAux (x :: seen) (xs ++ [n]) by simp [dedupFirstAux, hx]]
    rw [ih (x :: seen) hnodup.2 hdisj']
    have hiff : (n ∈ x :: seen ∨ n ∈ xs) ↔ (n ∈ seen ∨ n ∈ x :: xs) := by
      simp only [List.mem_cons]
      tauto
    by_cases hc : n ∈ seen ∨ n ∈ x :: xs
    · rw [if_pos (hiff.mpr hc), if_pos hc]
    · rw [if_neg (fun h => hc (hiff.mp h)), if_neg hc]

theorem mem_dedupFirst (n : String) (l : List String) :
    n ∈ dedupFirst l ↔ n ∈ l := by
  unfold dedupFirst
  rw [mem_dedupFirstAux]
  simp

theorem nodup_dedupFirst (l : List String) : (dedupFirst l).Nodup :=
  nodup_dedupFirstAux [] l

theorem dedupFirst_append_single (n : String) (es : List String)
    (hnodup : es.Nodup) :
    dedupFirst (es ++ [n]) = if n ∈ es then es else es ++ [n] := by
  unfold dedupFirst
  rw [dedupFirstAux_append_single n [] es hnodup (by simp)]
  simp

/-- Source: `attachSource` rewrites the source registry entry for `options.key`
to the merged entry (and touches no other part of the source registry). -/
theorem sourceEvents_attachSource_self (st : ClientState)
    (o : AttachSourceOptions) :
    sourceEvents (attachSource st o) o.key
      = dedupFirst (sourceEvents st o.key ++ [o.event.name]) := by
  cases h : lookupKey st.registeredSources o.key with
  | none =>
    simp [attachSource, attachJob, sourceRegistrationJob, sourceEvents, h,
      lookupKey_setKey_self]
  | some m =>
    simp [attachSource, attachJob, sourceRegistrationJob, sourceEvents, h,
      lookupKey_setKey_self]

/-! Dispatch lemmas shared by the claim proofs. -/

theorem handleRequest_auth_post (st : ClientState) (req : NormalizedRequest)
    (hauth : authorized st req.headers.xTriggerApiKey = true)
    (hm : req.method = "POST") :
    handleRequest st req = handlePost st req := by
  unfold handleRequest
  rw [hauth, hm]
  simp

theorem handlePost_initialize (st : ClientState) (req : NormalizedRequest)
    (ha : req.headers.xTriggerAction = some "INITIALIZE") :
    handlePost st req = .ok { status := 200, body := messageBody "Initialized" } := by
  unfold handlePost
  rw [ha]
  simp

theorem handlePost_initializeTrigger (st : ClientState)
    (req : NormalizedRequest)
    (ha : req.headers.xTriggerAction = some "INITIALIZE_TRIGGER") :
    handlePost st req = .ok (initializeTriggerResponse st req) := by
  unfold handlePost
  rw [ha]
  simp

theorem handlePost_executeJob (st : ClientState) (req : NormalizedRequest)
    (ha : req.headers.xTriggerAction = some "EXECUTE_JOB") :
    handlePost st req = .ok (executeJobResponse st req) := by
  unfold handlePost
  rw [ha]
  simp

theorem handlePost_preprocessRun (st : ClientState) (req : NormalizedRequest)
    (ha : req.headers.xTriggerAction = some "PREPROCESS_RUN") :
    handlePost st req = preprocessRunResponse st req := by
  unfold handlePost
  rw [ha]
  simp

theorem handlePost_deliver (st : ClientState) (req : NormalizedRequest)
    (ha : req.headers.xTriggerAction = some "DELIVER_HTTP_SOURCE_REQUEST") :
    handlePost st req = .ok (deliverHttpSourceResponse st req) := by
  unfold handlePost
  rw [ha]
  simp

/-! Claim theorems. -/

/-- C1: for every inbound request handled by `handleRequest`, if the
supplied `x-trigger-api-key` header is missing, differs from the
configured key, or no key is configured at all, the response is status
401 with the constant unauthorized message — for every method, action
header and body, before any other processing. -/
theorem unauthorized_requests_get_401 (st : ClientState)
    (req : NormalizedRequest)
    (h : req.headers.xTriggerApiKey = none ∨ configuredApiKey st = none ∨
         req.headers.xTriggerApiKey ≠ configuredApiKey st) :
    handleRequest st req
      = .ok { status := 401, body := messageBody "Unauthorized" } := by
  have hauth : authorized st req.headers.xTriggerApiKey = false := by
    unfold authorized
    cases hck : configuredApiKey st with
    | none => rfl
    | some k =>
      by_cases hk : k = ""
      · simp [hk]
      · have hne : req.headers.xTriggerApiKey ≠ some k := by
          rcases h with h | h | h
          · simp [h]
          · rw [hck] at h
            exact absurd h (by simp)
          · rw [hck] at h
            exact h
        simp [hk, hne]
  unfold handleRequest
  rw [hauth]
  simp

/-- Witness for C1 at a concrete mismatched key. -/
theorem unauthorized_requests_get_401_witness :
    handleRequest sampleState
      { method := "GET",
        headers := { emptyHeaders with xTriggerApiKey := some "wrong" },
        body := Json.null }
      = .ok { status := 401, body := messageBody "Unauthorized" } :=
  unauthorized_requests_get_401 sampleState
    { method := "GET",
      headers := { emptyHeaders with xTriggerApiKey := some "wrong" },
      body := Json.null }
    (Or.inr (Or.inr (by simp [configuredApiKey, sampleState, sampleOptions])))

/-- C2: a POST `EXECUTE_JOB` request with a valid body and registered job
whose run function raises the suspension signal with task `t` yields HTTP
200 (not 500) with a body carrying `completed: false` and `task: t`. -/
theorem execute_job_suspension_returns_200 (st : ClientState)
    (req : NormalizedRequest) (execution : RunJobBody) (job : Job)
    (p t : Json)
    (hauth : authorized st req.headers.xTriggerApiKey = true)
    (hm : req.method = "POST")
    (ha : req.headers.xTriggerAction = some "EXECUTE_JOB")
    (hb : runJobBodySafeParse req.body = some execution)
    (hj : lookupKey st.registeredJobs execution.job.id = some job)
    (hp : job.trigger.event.parsePayload
        (execution.event.payload.getD (Json.obj [])) = .ok p)
    (hr : job.run p { id := execution.run.id, cachedTasks := execution.tasks }
        (createRunContext execution) = .resumeWithTask t) :
    handleRequest st req
      = .ok { status := 200,
              body := Json.obj [("completed", Json.bool false),
                ("executionId", Json.str execution.run.id), ("task", t)] } := by
  rw [handleRequest_auth_post st req hauth hm, handlePost_executeJob st req ha]
  simp [executeJobResponse, hb, hj, executeJob, hp, hr, runJobResponseBody,
    optField]

/-- Witness for C2: the suspending sample job. -/
theorem execute_job_suspension_returns_200_witness :
    handleRequest stSuspend (sampleExecuteRequest "suspending-job")
      = .ok { status := 200,
              body := Json.obj [("completed", Json.bool false),
                ("executionId", Json.str "run-1"),
                ("task", Json.obj [("id", Json.str "task-1")])] } :=
  execute_job_suspension_returns_200 stSuspend
    (sampleExecuteRequest "suspending-job")
    { event := { id := "evt-1", name := "sample.event", context := none,
                 timestamp := "2023-06-01T00:00:00Z",
                 payload := some (Json.obj [("n", Json.num 7)]) },
      organization := Json.obj [("id", Json.str "org-1")],
      environment := Json.obj [("id", Json.str "env-1")],
      job := { id := "suspending-job", version := "1.0.0" },
      run := { id := "run-1" }, account := none, connections := none,
      tasks := [] }
    suspendingJob (Json.obj [("n", Json.num 7)])
    (Json.obj [("id", Json.str "task-1")])
    rfl rfl rfl rfl rfl rfl rfl

/-- C3: `#executeJob` classifies the run outcome in its fixed order —
normal return, suspension signal, error-with-stack shape,
error-with-message shape, unknown error — the five cases below are
exhaustive over the run result and each earlier shape takes precedence
(in particular a thrown value carrying both message and stack is
classified by the stack case, never the message-only or unknown case). -/
theorem executeJob_outcome_classification (body : RunJobBody) (job : Job)
    (p : Json)
    (hp : job.trigger.event.parsePayload
        (body.event.payload.getD (Json.obj [])) = .ok p) :
    (∀ v, job.run p { id := body.run.id, cachedTasks := body.tasks }
          (createRunContext body) = .ok v →
        executeJob body job
          = { completed := true, output := some v, task := none, error := none })
  ∧ (∀ t, job.run p { id := body.run.id, cachedTasks := body.tasks }
          (createRunContext body) = .resumeWithTask t →
        executeJob body job
          = { completed := false, output := none, task := some t, error := none })
  ∧ (∀ m s, job.run p { id := body.run.id, cachedTasks := body.tasks }
          (createRunContext body) = .thrown { message := some m, stack := some s } →
        executeJob body job
          = { completed := true, output := none, task := none,
              error := some { message := m, stack := some s } })
  ∧ (∀ m, job.run p { id := body.run.id, cachedTasks := body.tasks }
          (createRunContext body) = .thrown { message := some m, stack := none } →
        executeJob body job
          = { completed := true, output := none, task := none,
              error := some { message := m, stack := none } })
  ∧ (∀ s, job.run p { id := body.run.id, cachedTasks := body.tasks }
          (createRunContext body) = .thrown { message := none, stack := s } →
        executeJob body job
          = { completed := true, output := none, task := none,
              error := some { message := "Unknown error", stack := none } }) := by
  refine ⟨fun v hr => ?_, fun t hr => ?_, fun m s hr => ?_, fun m hr => ?_,
    fun s hr => ?_⟩ <;>
    simp [executeJob, hp, hr, classifyThrown, errorWithStackSafeParse,
      errorWithMessageSafeParse]

/-- Witness for C3: a thrown value with both message and stack is
classified with its stack (the error-with-stack case wins). -/
theorem executeJob_outcome_classification_witness :
    executeJob sampleRunBody throwBothJob
      = { completed := true, output := none, task := none,
          error := some { message := "boom", stack := some "trace" } } :=
  (executeJob_outcome_classification sampleRunBody throwBothJob
    (Json.obj [("n", Json.num 7)]) rfl).2.2.1 "boom" "trace" rfl

/-- C4 counterexample: the claim asserts every one of the five POST
actions validates the request body and yields 400 on a failing body; but
the `INITIALIZE` branch performs no validation at all — a body rejected
by every action schema still yields 200. -/
theorem initialize_skips_body_validation :
    runJobBodySafeParse Json.null = none
  ∧ initializeTriggerBodySafeParse Json.null = none
  ∧ preprocessRunBodySafeParse Json.null = none
  ∧ handleRequest sampleState
      { method := "POST", headers := actionHeaders "INITIALIZE",
        body := Json.null }
      = .ok { status := 200, body := messageBody "Initialized" } :=
  ⟨rfl, rfl, rfl, rfl⟩

/-- C4 (amended): for `INITIALIZE_TRIGGER`, `EXECUTE_JOB` and
`PREPROCESS_RUN` the body is validated against that action's schema, and
for `DELIVER_HTTP_SOURCE_REQUEST` the headers are; a failing body (or
header set) yields the constant 400 response for every client state with
that authorization, hence without consulting any registry — while
`INITIALIZE` performs no validation. -/
theorem post_validation_failure_yields_400 (st : ClientState)
    (req : NormalizedRequest)
    (hauth : authorized st req.headers.xTriggerApiKey = true)
    (hm : req.method = "POST") :
    (req.headers.xTriggerAction = some "INITIALIZE_TRIGGER" →
       initializeTriggerBodySafeParse req.body = none →
       handleRequest st req
         = .ok { status := 400, body := messageBody "Invalid trigger body" })
  ∧ (req.headers.xTriggerAction = some "EXECUTE_JOB" →
       runJobBodySafeParse req.body = none →
       handleRequest st req
         = .ok { status := 400, body := messageBody "Invalid execution" })
  ∧ (req.headers.xTriggerAction = some "PREPROCESS_RUN" →
       preprocessRunBodySafeParse req.body = none →
       handleRequest st req
         = .ok { status := 400, body := messageBody "Invalid body" })
  ∧ (req.headers.xTriggerAction = some "DELIVER_HTTP_SOURCE_REQUEST" →
       httpSourceRequestHeadersSafeParse req.headers = none →
       handleRequest st req
         = .ok { status := 400, body := messageBody "Invalid headers" }) := by
  refine ⟨fun ha hv => ?_, fun ha hv => ?_, fun ha hv => ?_, fun ha hv => ?_⟩
  · rw [handleRequest_auth_post st req hauth hm,
      handlePost_initializeTrigger st req ha]
    simp [initializeTriggerResponse, hv]
  · rw [handleRequest_auth_post st req hauth hm, handlePost_executeJob st req ha]
    simp [executeJobResponse, hv]
  · rw [handleRequest_auth_post st req hauth hm,
      handlePost_preprocessRun st req ha]
    simp [preprocessRunResponse, hv]
  · rw [handleRequest_auth_post st req hauth hm, handlePost_deliver st req ha]
    simp [deliverHttpSourceResponse, hv]

/-- Witness for C4 (amended): an invalid `EXECUTE_JOB` body yields the
constant 400. -/
theorem post_validation_failure_yields_400_witness :
    handleRequest sampleState
      { method := "POST", headers := actionHeaders "EXECUTE_JOB",
        body := Json.null }
      = .ok { status := 400, body := messageBody "Invalid execution" } :=
  (post_validation_failure_yields_400 sampleState
    { method := "POST", headers := actionHeaders "EXECUTE_JOB",
      body := Json.null }
    rfl rfl).2.1 rfl rfl

/-- Folding `attachSource` over calls for key `k` accumulates the event
names into the entry's event list, without duplicates. -/
theorem sourceEvents_foldl (k : String) (calls : List AttachSourceOptions) :
    ∀ st : ClientState, (∀ o ∈ calls, o.key = k) →
      (sourceEvents st k).Nodup →
      (sourceEvents (calls.foldl attachSource st) k).Nodup
    ∧ ∀ n, n ∈ sourceEvents (calls.foldl attachSource st) k ↔
        n ∈ sourceEvents st k ∨ n ∈ calls.map (fun o => o.event.name) := by
  induction calls with
  | nil =>
    intro st _ hnodup
    exact ⟨hnodup, fun n => by simp⟩
  | cons o rest ih =>
    intro st hk hnodup
    have hko : o.key = k := hk o (List.mem_cons_self o rest)
    have hstep : sourceEvents (attachSource st o) k
        = dedupFirst (sourceEvents st k ++ [o.event.name]) := by
      rw [← hko]
      exact sourceEvents_attachSource_self st o
    have hnodup' : (sourceEvents (attachSource st o) k).Nodup := by
      rw [hstep]
      exact nodup_dedupFirst _
    obtain ⟨hn, hmem⟩ := ih (attachSource st o)
      (fun o' ho' => hk o' (List.mem_cons_of_mem o ho')) hnodup'
    rw [List.foldl_cons]
    refine ⟨hn, fun n => ?_⟩
    rw [hmem n, hstep, mem_dedupFirst]
    simp only [List.mem_append, List.map_cons, List.mem_cons,
      List.mem_singleton]
    tauto

/-- C5: for every key `k`, a sequence of `attachSource` calls with key
`k` (starting from a state with no entry for `k`) leaves a registry entry
whose event list is exactly the set-union of the supplied event names,
each appearing once; and a further call whose event name is already
present leaves the event set unchanged. -/
theorem attachSource_event_set_semantics (k : String) (st : ClientState)
    (calls : List AttachSourceOptions)
    (hk : ∀ o ∈ calls, o.key = k)
    (h0 : lookupKey st.registeredSources k = none) :
    ((sourceEvents (calls.foldl attachSource st) k).Nodup
      ∧ ∀ n, n ∈ sourceEvents (calls.foldl attachSource st) k ↔
          n ∈ calls.map (fun o => o.event.name))
  ∧ (∀ (st' : ClientState) (o : AttachSourceOptions),
       (sourceEvents st' o.key).Nodup →
       o.event.name ∈ sourceEvents st' o.key →
       sourceEvents (attachSource st' o) o.key = sourceEvents st' o.key) := by
  have hev : sourceEvents st k = [] := by simp [sourceEvents, h0]
  obtain ⟨hn, hmem⟩ := sourceEvents_foldl k calls st hk (by
    rw [hev]
    exact List.nodup_nil)
  refine ⟨⟨hn, fun n => ?_⟩, fun st' o hnodup hpresent => ?_⟩
  · rw [hmem n, hev]
    simp
  · rw [sourceEvents_attachSource_self st' o,
      dedupFirst_append_single _ _ hnodup, if_pos hpresent]

/-- Witness for C5: after attaching `"issues.opened"` then
`"issues.closed"` under the same key, the second event name is in the
entry's event set. -/
theorem attachSource_event_set_semantics_witness :
    "issues.closed" ∈ sourceEvents
      (List.foldl attachSource sampleState [attachCallA, attachCallB])
      "src-key" :=
  ((attachSource_event_set_semantics "src-key" sampleState
      [attachCallA, attachCallB]
      (by
        intro o ho
        rcases List.mem_cons.mp ho with h | h
        · rw [h]
          rfl
        · rw [List.mem_singleton.mp h]
          rfl) rfl).1.2 "issues.closed").mpr
    (by simp [attachCallA, attachCallB, eventSpecNamed])

/-- C6 counterexample: with no explicit endpoint option and no
endpoint/host environment variable, the fatal configuration error is
raised by the constructor itself (which resolves
`options.endpoint ?? buildEndpointUrl(options.path)` eagerly) — not at
listen-time as the claim states. -/
theorem endpoint_error_raised_at_construction :
    TriggerClient.construct "client"
      { apiKey := none, apiUrl := none, endpoint := none, path := none }
      emptyEnv
      = .error endpointErrorMessage := rfl

/-- C6 (amended): when no explicit endpoint option is given and none of
the endpoint/host configuration variables is usable, the fatal
configuration error is raised at construction of the client (and
`listen` performs no endpoint resolution of its own). -/
theorem construct_fails_without_endpoint_config (name : String)
    (options : TriggerClientOptions) (env : Env)
    (he : options.endpoint = none)
    (ht : envTruthy env.TRIGGER_ENDPOINT = none)
    (hh : (env.TRIGGER_HOST <|> env.HOST <|> env.HOSTNAME <|> env.NOW_URL <|> env.VERCEL_URL) = none
        ∨ (env.TRIGGER_HOST <|> env.HOST <|> env.HOSTNAME <|> env.NOW_URL <|> env.VERCEL_URL) = some "") :
    TriggerClient.construct name options env = .error endpointErrorMessage := by
  unfold TriggerClient.construct
  rw [he]
  unfold buildEndpointUrl
  rw [ht]
  rcases hh with hh | hh <;> simp [hh]

/-- Witness for C6 (amended): `HOST` present but empty, everything else
absent. -/
theorem construct_fails_without_endpoint_config_witness :
    TriggerClient.construct "client"
      { apiKey := none, apiUrl := none, endpoint := none,
        path := some "/api/trigger" }
      { emptyEnv with HOST := some "" }
      = .error endpointErrorMessage :=
  construct_fails_without_endpoint_config "client"
    { apiKey := none, apiUrl := none, endpoint := none,
      path := some "/api/trigger" }
    { emptyEnv with HOST := some "" } rfl rfl (Or.inr rfl)

/-- C7: `attachJobToDynamicTrigger` appends `{id, version}` without
deduplication — two calls with the same job append the reference twice. -/
theorem attachJobToDynamicTrigger_appends (st : ClientState) (job : Job)
    (trigger : DynamicTrigger) :
    lookupKey (attachJobToDynamicTrigger
        (attachJobToDynamicTrigger st job trigger) job trigger).jobMetadataByDynamicTriggers
      trigger.id
      = some ((lookupKey st.jobMetadataByDynamicTriggers trigger.id).getD []
          ++ [{ id := job.id, version := job.version },
              { id := job.id, version := job.version }]) := by
  unfold attachJobToDynamicTrigger
  simp [lookupKey_setKey_self]

/-- C8: the execution context built for a run or preprocess request is
exactly the projection of event id/name/context/timestamp plus
organization, environment, job, run and account — and it is independent
of the raw event payload (which is parsed and passed to user code
separately). -/
theorem run_context_contains_only_projection :
    (∀ execution : RunJobBody,
        createRunContext execution
          = { event := { id := execution.event.id,
                         name := execution.event.name,
                         context := execution.event.context,
                         timestamp := execution.event.timestamp },
              organization := execution.organization,
              environment := execution.environment,
              job := execution.job, run := execution.run,
              account := execution.account })
  ∧ (∀ (execution : RunJobBody) (p : Option Json),
        createRunContext { execution with event := { execution.event with payload := p } }
          = createRunContext execution)
  ∧ (∀ body : PreprocessRunBody,
        createPreprocessRunContext body
          = { event := { id := body.event.id, name := body.event.name,
                         context := body.event.context,
                         timestamp := body.event.timestamp },
              organization := body.organization,
              environment := body.environment,
              job := body.job, run := body.run,
              account := body.account })
  ∧ (∀ (body : PreprocessRunBody) (p : Option Json),
        createPreprocessRunContext { body with event := { body.event with payload := p } }
          = createPreprocessRunContext body) :=
  ⟨fun _ => rfl, fun _ _ => rfl, fun _ => rfl, fun _ _ => rfl⟩

/-- C9 counterexample: a payload parse failure during `PREPROCESS_RUN`
is not caught — the thrown value propagates out of `handleRequest` as an
unhandled fault. -/
theorem preprocess_parse_failure_propagates :
    handleRequest stParseFail (samplePreprocessRequest "parse-failing-job")
      = .error { message := some "bad payload", stack := none }
  ∧ isHandled (handleRequest stParseFail
      (samplePreprocessRequest "parse-failing-job")) = false :=
  ⟨rfl, rfl⟩

/-- C9 (amended): every failure raised inside `#executeJob`'s execution
layer (payload parse or user run function) is caught and converted to a
structured outcome — a POST `EXECUTE_JOB` request always receives a
response, never a propagated fault; `PREPROCESS_RUN` does not share this
guarantee (its payload parse failure propagates). -/
theorem execute_job_requests_always_answered (st : ClientState)
    (req : NormalizedRequest)
    (hm : req.method = "POST")
    (ha : req.headers.xTriggerAction = some "EXECUTE_JOB") :
    isHandled (handleRequest st req) = true := by
  cases hauth : authorized st req.headers.xTriggerApiKey with
  | false =>
    unfold handleRequest
    rw [hauth]
    simp [isHandled]
  | true =>
    rw [handleRequest_auth_post st req hauth hm,
      handlePost_executeJob st req ha]
    rfl

/-- Witness for C9 (amended): the suspending job's request is answered. -/
theorem execute_job_requests_always_answered_witness :
    isHandled (handleRequest stSuspend (sampleExecuteRequest "suspending-job"))
      = true :=
  execute_job_requests_always_answered stSuspend
    (sampleExecuteRequest "suspending-job") rfl rfl

/-- C10: re-attaching a source under an already-registered key keeps the
channel, params and clientId established by the first registration
unchanged, merges the event name into the event set, and replaces the
HTTP handler with the latest closure. -/
theorem attachSource_preserves_first_registration (st : ClientState)
    (o : AttachSourceOptions) (m : SourceMetadata)
    (h : lookupKey st.registeredSources o.key = some m) :
    lookupKey (attachSource st o).registeredSources o.key
      = some { channel := m.channel, key := m.key, params := m.params,
               events := dedupFirst (m.events ++ [o.event.name]),
               clientId := m.clientId }
  ∧ (attachSource st o).registeredHttpSourceHandlers
      = setKey st.registeredHttpSourceHandlers o.key
          (fun s r => o.source.handle s r) := by
  constructor
  · simp [attachSource, attachJob, sourceRegistrationJob, h,
      lookupKey_setKey_self]
  · simp [attachSource, attachJob, sourceRegistrationJob]

/-- Witness for C10: a second attach call for the registered sample
source. -/
theorem attachSource_preserves_first_registration_witness :
    lookupKey (attachSource stWithSource attachCallB).registeredSources
        "src-key"
      = some { channel := "HTTP", key := "src-key", params := Json.null,
               events := dedupFirst (["issues.opened"] ++ ["issues.closed"]),
               clientId := some "github" }
  ∧ (attachSource stWithSource attachCallB).registeredHttpSourceHandlers
      = setKey stWithSource.registeredHttpSourceHandlers "src-key"
          (fun s r => attachCallB.source.handle s r) :=
  attachSource_preserves_first_registration stWithSource attachCallB
    firstRegistrationMeta rfl

end Trigger
